import Mathlib

/-!
Verification of the SurvivalGPT question-answering core against its
natural-language specification.

The development shallowly embeds the Python modules
`modules/ai/qa_engine.py`, `modules/ai/scenario_handler.py`,
`modules/ai/emergency_handler.py`, `modules/ai/llm_manager.py` and
`modules/utils/config_manager.py`.  Text is modelled as `List Char`
(`Str`), Python dicts as insertion-ordered association lists, the JSON
configuration tree as the inductive `CVal`, and the external
collaborators (SQLite store, HTTP model APIs, `random.choice`) as
explicit oracle parameters.
-/

set_option maxRecDepth 4000

namespace SurvivalGPT

/-- Text is modelled as a list of characters so that substring (`<:+:`),
prefix and tokenisation reasoning is available. -/
abbrev Str := List Char

/-- Coerce a Lean string literal to the character-list model. -/
def str (s : String) : Str := s.data

/-- Python `str.lower()`; on the ASCII and CJK characters used by the
repository this agrees with `Char.toLower`. -/
def pyLower (s : Str) : Str := s.map Char.toLower

/-- Python regex `\w` (a word character), modelled for the character
ranges that occur in the repository's data: ASCII alphanumerics, the
underscore, and CJK unified ideographs. -/
def isWordChar (c : Char) : Bool :=
  c.isAlphanum || c = '_' || (0x4E00 ≤ c.toNat && c.toNat ≤ 0x9FFF)

/-- Helper for `fallbackTokenize`: accumulates the current run of word
characters (in reverse) while scanning the text. -/
def tokenizeAux : Str → Str → List Str
  | [], acc => if acc = [] then [] else [acc.reverse]
  | c :: t, acc =>
    if isWordChar c then tokenizeAux t (c :: acc)
    else if acc = [] then tokenizeAux t [] else acc.reverse :: tokenizeAux t []

/-- `qa_engine.py`, fallback `jieba.lcut` (used when the external jieba
library is absent): `re.findall(r'[\w]+', text)`, i.e. the maximal runs
of word characters. -/
def fallbackTokenize (s : Str) : List Str := tokenizeAux s []

/-- `qa_engine.py`, fallback `fuzz.ratio` (used when the external
fuzzywuzzy library is absent): 100 for equal strings, 80 when one is a
substring of the other, 0 otherwise. -/
def fuzzRatio (s1 s2 : Str) : ℕ :=
  if s1 = s2 then 100
  else if decide (s1 <:+: s2) || decide (s2 <:+: s1) then 80
  else 0

/-- `QAEngine._build_keywords_map`: the static category → keywords map,
in declaration order. -/
def keywordsMap : List (Str × List Str) :=
  [ (str "水源", [str "水", str "饮水", str "净水", str "水源", str "喝水", str "缺水", str "找水", str "取水"])
  , (str "食物", [str "食物", str "吃", str "饥饿", str "觅食", str "狩猎", str "采集", str "植物", str "果实", str "肉类"])
  , (str "庇护所", [str "庇护所", str "帐篷", str "住所", str "避难", str "搭建", str "房屋", str "遮蔽", str "过夜"])
  , (str "医疗", [str "医疗", str "受伤", str "伤口", str "急救", str "治疗", str "药物", str "包扎", str "止血", str "骨折"])
  , (str "生火", [str "生火", str "火", str "点火", str "取暖", str "烹饪", str "火堆", str "燃料", str "打火机"])
  , (str "导航", [str "导航", str "方向", str "迷路", str "指南针", str "定位", str "路线", str "地图", str "北方"])
  , (str "工具", [str "工具", str "制作", str "武器", str "刀具", str "绳索", str "容器", str "陷阱"])
  , (str "天气", [str "天气", str "下雨", str "寒冷", str "炎热", str "风暴", str "雪", str "温度"])
  , (str "危险", [str "危险", str "野兽", str "毒蛇", str "有毒", str "攻击", str "防御", str "逃跑"]) ]

/-- `QAEngine._match_keywords`, inner accumulation for one category: the
similarity of every (token, keyword) pair is added when it exceeds the
threshold 70. -/
def categoryScore (words keywords : List Str) : ℕ :=
  (words.map (fun w =>
    (keywords.map (fun k => let r := fuzzRatio w k; if 70 < r then r else 0)).sum)).sum

/-- `QAEngine._match_keywords`: the `defaultdict` of per-category scores
in insertion order.  A category is inserted exactly when some pair
crosses the threshold, hence exactly when its total score is positive,
and insertion order is the map's declaration order. -/
def categoryScores (q : Str) : List (Str × ℕ) :=
  (keywordsMap.map (fun p => (p.1, categoryScore (fallbackTokenize q) p.2))).filter
    (fun p => 0 < p.2)

/-- Python `max(items, key=lambda x: x[1])`: the first item whose key is
maximal (later items replace the current best only when strictly
greater). -/
def pyMaxBySnd {α : Type} (l : List (α × ℕ)) : Option (α × ℕ) :=
  match l with
  | [] => none
  | x :: xs => some (xs.foldl (fun b y => if b.2 < y.2 then y else b) x)

/-- `QAEngine._match_keywords`: the best-scoring category, or `none`
when the score dict is empty. -/
def matchKeywords (q : Str) : Option Str :=
  (pyMaxBySnd (categoryScores q)).map Prod.fst

/-- The Keyword Classifier as the specification words it (for the
refutation of C1): each category scores the summed character-length of
its keywords that occur as substrings of the lower-cased input; the
first category with maximal positive score wins, `none` otherwise. -/
def classifySpecC1 (q : Str) : Option Str :=
  (pyMaxBySnd ((keywordsMap.map (fun p =>
      (p.1, (p.2.map (fun k => if decide (k <:+: pyLower q) then k.length else 0)).sum))).filter
    (fun p => 0 < p.2))).map Prod.fst

/-! ### Pattern matcher (`QAEngine._build_question_patterns` / `_match_question_pattern`) -/

/-- A question pattern: the repository's regexes all have the shape
`.*(a|b).*(c|d)...` (with `re.search`, a leading `.*` is irrelevant), so
a pattern is an ordered list of alternation groups that must occur in
order without overlapping, each group being a list of literal
alternatives. -/
abbrev QPattern := List (List Str)

/-- `re.search` semantics for a pattern in the shape above: each group
matches one of its alternatives at some position of the remaining text,
and the rest of the groups match in the text after that occurrence. -/
def patMatchesFrom : QPattern → Str → Bool
  | [], _ => true
  | g :: gs, s =>
    (List.range (s.length + 1)).any (fun i =>
      g.any (fun a => decide (a <+: s.drop i) && patMatchesFrom gs ((s.drop i).drop a.length)))

/-- `QAEngine._build_question_patterns`: the ordered pattern list, in
declaration order (greeting patterns first). -/
def questionPatterns : List (QPattern × Str) :=
  [ ([[str "你好", str "您好", str "hi", str "hello"]], str "greeting")
  , ([[str "帮助", str "help"]], str "greeting")
  , ([[str "怎么", str "如何", str "怎样"], [str "找", str "寻找", str "获得", str "取得"], [str "水", str "水源"]], str "water_search")
  , ([[str "净化", str "过滤", str "消毒"], [str "水", str "水源"]], str "water_purify")
  , ([[str "缺水", str "没水", str "渴"]], str "water_shortage")
  , ([[str "怎么", str "如何", str "怎样"], [str "找", str "寻找", str "获得", str "捕获"], [str "食物", str "吃的"]], str "food_search")
  , ([[str "可以吃", str "能吃", str "食用"], [str "什么", str "哪些"]], str "edible_food")
  , ([[str "植物", str "果实", str "野菜"]], str "edible_plants")
  , ([[str "怎么", str "如何", str "怎样"], [str "搭建", str "建造", str "做"], [str "庇护所", str "帐篷", str "住所"]], str "shelter_build")
  , ([[str "过夜", str "睡觉", str "休息"], [str "哪里", str "地方"]], str "shelter_location")
  , ([[str "受伤", str "伤口", str "出血", str "骨折"]], str "medical_injury")
  , ([[str "急救", str "治疗", str "处理"], [str "伤口", str "外伤"]], str "medical_treatment")
  , ([[str "中毒", str "食物中毒"]], str "medical_poisoning")
  , ([[str "怎么", str "如何", str "怎样"], [str "生火", str "点火", str "取火"]], str "fire_making")
  , ([[str "没有", str "缺少"], [str "打火机", str "火柴"]], str "fire_no_tools")
  , ([[str "迷路", str "找不到", str "方向"]], str "navigation_lost")
  , ([[str "怎么", str "如何"], [str "辨别", str "识别"], [str "方向", str "东南西北"]], str "navigation_direction")
  , ([[str "野兽", str "动物", str "蛇", str "毒蛇"], [str "攻击", str "咬", str "遇到"]], str "danger_animals")
  , ([[str "有毒", str "毒性"], [str "植物", str "蘑菇"]], str "danger_plants") ]

/-- `QAEngine._match_question_pattern`: the intent tag of the first
pattern (in declaration order) that matches, else `none`. -/
def matchQuestionPattern (q : Str) : Option Str :=
  (questionPatterns.find? (fun pr => patMatchesFrom pr.1 q)).map Prod.snd

/-! ### Threat adjustment (`ScenarioHandler._adjust_threat_level`) -/

/-- `ScenarioHandler._adjust_threat_level`: starting from the threat's
base danger level, +1 for an urban marker (城市/市区) in the location,
−1 for a rural marker (郊外/乡村), then ±1 for a night marker
(夜晚/晚上) in the time of day — −1 in the zombie scenario, +1 in every
other scenario — and the result is clamped to [1,5].  Empty location or
time strings are falsy in Python and contribute nothing. -/
def adjustThreatLevel (currentScenario : Str) (dangerLevel : ℤ) (location timeOfDay : Str) : ℤ :=
  let locAdj : ℤ :=
    if location = [] then 0
    else if decide (str "城市" <:+: location) || decide (str "市区" <:+: location) then 1
    else if decide (str "郊外" <:+: location) || decide (str "乡村" <:+: location) then -1
    else 0
  let timeAdj : ℤ :=
    if timeOfDay = [] then 0
    else if decide (str "夜晚" <:+: timeOfDay) || decide (str "晚上" <:+: timeOfDay) then
      (if currentScenario = str "zombie" then -1 else 1)
    else 0
  max 1 (min 5 (dangerLevel + (locAdj + timeAdj)))

/-! ### Emergency severity (`EmergencyHandler.assess_emergency_severity`) -/

/-- `EmergencyLevel` enum of `emergency_handler.py`. -/
inductive EmergencyLevel where
  | LOW | MEDIUM | HIGH | CRITICAL
deriving DecidableEq

/-- The `critical_symptoms` list of `assess_emergency_severity`. -/
def criticalSymptoms : List Str :=
  [str "意识不清", str "无呼吸", str "无脉搏", str "大量出血", str "休克",
   str "严重呼吸困难", str "胸痛", str "严重过敏反应"]

/-- The `high_risk_symptoms` list of `assess_emergency_severity`. -/
def highRiskSymptoms : List Str :=
  [str "持续呕吐", str "高烧", str "严重疼痛", str "呼吸急促",
   str "皮肤发青", str "意识模糊", str "抽搐"]

/-- Per-symptom contributions of the symptom loop of
`assess_emergency_severity`: +10 and a 危急症状 note for every critical
phrase contained in the lower-cased symptom, then +5 and a 高危症状 note
for every high-risk phrase contained in it. -/
def symptomMatches (s : Str) : List (ℕ × Str) :=
  (criticalSymptoms.filter (fun c => decide (c <:+: pyLower s))).map
      (fun c => (10, str "危急症状：" ++ c))
    ++ (highRiskSymptoms.filter (fun h => decide (h <:+: pyLower s))).map
      (fun h => (5, str "高危症状：" ++ h))

/-- Contributions of the vital-signs block of
`assess_emergency_severity`.  The Python parameter is a dict (or
`None`), modelled as an optional association list of numeric values;
`if vital_signs:` skips the block both for `None` and for the empty
dict.  Missing `pulse` and `breathing_rate` keys default to 0, a missing
`temperature` defaults to 36.5. -/
def vitalMatches (vitalSigns : Option (List (Str × ℚ))) : List (ℕ × Str) :=
  match vitalSigns with
  | none => []
  | some d =>
    if d = [] then []
    else
      let pulse := (d.lookup (str "pulse")).getD 0
      let breathing := (d.lookup (str "breathing_rate")).getD 0
      let temperature := (d.lookup (str "temperature")).getD (36.5 : ℚ)
      (if pulse < 50 ∨ 120 < pulse then [(5, str "心率异常")] else [])
        ++ (if breathing < 10 ∨ 30 < breathing then [(5, str "呼吸频率异常")] else [])
        ++ (if temperature < 35 ∨ 39 < temperature then [(3, str "体温异常")] else [])

/-- Result record of `assess_emergency_severity`. -/
structure AssessResult where
  severity_level : EmergencyLevel
  severity_score : ℕ
  risk_factors : List Str
  recommendation : Str
  monitoring_required : Bool

/-- `EmergencyHandler.assess_emergency_severity`: the accumulated score
and risk-factor notes, thresholded at 15/10/5 into the severity level
and recommendation (the source computes level and recommendation in one
if/elif chain; here the same chain appears once per field). -/
def assessEmergencySeverity (symptoms : List Str)
    (vitalSigns : Option (List (Str × ℚ))) : AssessResult :=
  let contribs := (symptoms.map symptomMatches).flatten ++ vitalMatches vitalSigns
  let score := (contribs.map Prod.fst).sum
  { severity_level :=
      if 15 ≤ score then .CRITICAL
      else if 10 ≤ score then .HIGH
      else if 5 ≤ score then .MEDIUM
      else .LOW
  , severity_score := score
  , risk_factors := contribs.map Prod.snd
  , recommendation :=
      if 15 ≤ score then str "立即寻求专业医疗救助！"
      else if 10 ≤ score then str "需要紧急处理，尽快寻求医疗帮助"
      else if 5 ≤ score then str "需要关注和处理，建议寻求医疗建议"
      else str "可以自行处理，但要密切观察"
  , monitoring_required := decide (5 ≤ score) }

/-- Number of (symptom, critical phrase) containment pairs of a symptom
list — the +10 contributions of `assess_emergency_severity`. -/
def countCrit (symptoms : List Str) : ℕ :=
  (symptoms.map (fun s =>
    (criticalSymptoms.filter (fun c => decide (c <:+: pyLower s))).length)).sum

/-- Number of (symptom, high-risk phrase) containment pairs of a symptom
list — the +5 contributions of `assess_emergency_severity`. -/
def countHigh (symptoms : List Str) : ℕ :=
  (symptoms.map (fun s =>
    (highRiskSymptoms.filter (fun h => decide (h <:+: pyLower s))).length)).sum

/-! ### Configuration manager (`modules/utils/config_manager.py`) -/

/-- A JSON-like configuration value: the shapes stored by
`ConfigManager` (strings, numbers, booleans, lists, and
insertion-ordered dicts). -/
inductive CVal where
  | str : Str → CVal
  | num : ℚ → CVal
  | bool : Bool → CVal
  | arr : List CVal → CVal
  | obj : List (Str × CVal) → CVal

/-- `ConfigManager.get` after splitting the key path: walk the dict
tree; any missing key or non-dict intermediate yields `none` (the caller
supplies the default). -/
def cfgGet : CVal → List Str → Option CVal
  | v, [] => some v
  | CVal.obj es, k :: rest =>
    match es.lookup k with
    | some v => cfgGet v rest
    | none => none
  | _, _ :: _ => none

/-- Python dict assignment `d[k] = v`: replaces the value in place when
the key exists, otherwise appends the new entry (insertion order). -/
def insertOrReplace (es : List (Str × CVal)) (k : Str) (v : CVal) : List (Str × CVal) :=
  if es.any (fun p => p.1 == k) then es.map (fun p => if p.1 == k then (p.1, v) else p)
  else es ++ [(k, v)]

/-- `ConfigManager.set` after splitting the key path: navigate to the
parent of the last key, creating `{}` for missing intermediate keys, and
assign.  Writing through a non-dict raises in Python and is caught
(`none` here; the intermediate dicts Python creates before such a
failure are not modelled — no claim depends on that corner). -/
def setPath : CVal → List Str → CVal → Option CVal
  | CVal.obj es, [k], v => some (CVal.obj (insertOrReplace es k v))
  | CVal.obj es, k :: k2 :: rest, v =>
    let child := (es.lookup k).getD (CVal.obj [])
    (setPath child (k2 :: rest) v).map (fun c => CVal.obj (insertOrReplace es k c))
  | _, _, _ => none

/-- The observable state of a `ConfigManager`: the in-memory
`config_data` and the contents of the configuration file on disk. -/
structure ConfigState where
  mem : CVal
  file : CVal

/-- `ConfigManager.set`: updates `config_data` in memory and returns
whether it succeeded.  It performs no file I/O. -/
def configSet (cs : ConfigState) (keys : List Str) (v : CVal) : Bool × ConfigState :=
  match setPath cs.mem keys v with
  | some m => (true, { mem := m, file := cs.file })
  | none => (false, cs)

/-- `ConfigManager.save_config`: writes the in-memory configuration to
the configuration file (the success path; I/O failure is not
modelled). -/
def saveConfig (cs : ConfigState) : ConfigState :=
  { mem := cs.mem, file := cs.mem }

/-- `ConfigManager._load_default_config`: the default configuration
tree. -/
def defaultConfig : CVal :=
  CVal.obj
    [ (str "app", CVal.obj
        [ (str "name", CVal.str (str "AI末日生存求生向导"))
        , (str "version", CVal.str (str "1.0.0"))
        , (str "window_width", CVal.num 1200)
        , (str "window_height", CVal.num 800)
        , (str "theme", CVal.str (str "light"))
        , (str "language", CVal.str (str "zh_CN")) ])
    , (str "database", CVal.obj
        [ (str "path", CVal.str (str "data/survival_guide.db"))
        , (str "backup_enabled", CVal.bool true)
        , (str "backup_interval", CVal.num 24) ])
    , (str "ai", CVal.obj
        [ (str "model_type", CVal.str (str "rule_based"))
        , (str "confidence_threshold", CVal.num (0.7 : ℚ))
        , (str "max_response_length", CVal.num 500)
        , (str "enable_learning", CVal.bool true) ])
    , (str "ui", CVal.obj
        [ (str "font_family", CVal.str (str "Microsoft YaHei"))
        , (str "font_size", CVal.num 12)
        , (str "show_tips", CVal.bool true)
        , (str "auto_save", CVal.bool true)
        , (str "animation_enabled", CVal.bool true) ])
    , (str "features", CVal.obj
        [ (str "emergency_mode", CVal.bool true)
        , (str "offline_mode", CVal.bool true)
        , (str "voice_enabled", CVal.bool false)
        , (str "notifications", CVal.bool true) ]) ]

/-! ### Scenario handler state (`modules/ai/scenario_handler.py`) -/

/-- The mutable state of a `ScenarioHandler`: the `current_scenario`
attribute together with its configuration manager. -/
structure ScenarioState where
  current : Str
  cfg : ConfigState

/-- `config_manager.get("scenarios.available_scenarios", {})` as used by
`set_current_scenario` and `get_current_scenario_info`. -/
def availableScenarios (cs : ConfigState) : CVal :=
  (cfgGet cs.mem [str "scenarios", str "available_scenarios"]).getD (CVal.obj [])

/-- Python `key in dict` on a configuration value (the scenario tables
are dicts). -/
def dictContains (v : CVal) (k : Str) : Bool :=
  match v with
  | CVal.obj es => es.any (fun p => p.1 == k)
  | _ => false

/-- `ScenarioHandler.set_current_scenario`: reject ids that are not keys
of `scenarios.available_scenarios` without mutating anything; otherwise
update the attribute, write the config key `scenarios.current_scenario`
(the returned boolean of `set` is ignored, as in the source) and persist
via `save_config`. -/
def setCurrentScenario (s : ScenarioState) (scenarioType : Str) : Bool × ScenarioState :=
  if dictContains (availableScenarios s.cfg) scenarioType then
    let cfg1 := (configSet s.cfg [str "scenarios", str "current_scenario"]
      (CVal.str scenarioType)).2
    (true, { current := scenarioType, cfg := saveConfig cfg1 })
  else (false, s)

/-- Python `dict.update`: merge the second dict into the first,
replacing existing keys in place and appending new ones. -/
def pyDictUpdate (d e : List (Str × CVal)) : List (Str × CVal) :=
  e.foldl (fun acc kv => insertOrReplace acc kv.1 kv.2) d

/-- `ScenarioHandler.get_current_scenario_info`: the configured info
dict of the current scenario (`{}` when absent), merged with the
database record when the database returns one (the database is an
oracle parameter), and finally stamped with
`scenario_info["scenario_type"] = current`. -/
def getCurrentScenarioInfo (s : ScenarioState) (dbInfo : List (Str × CVal)) :
    List (Str × CVal) :=
  let base : List (Str × CVal) :=
    match availableScenarios s.cfg with
    | CVal.obj es =>
      match es.lookup s.current with
      | some (CVal.obj info) => info
      | _ => []
    | _ => []
  let merged := if dbInfo.isEmpty then base else pyDictUpdate base dbInfo
  insertOrReplace merged (str "scenario_type") (CVal.str s.current)

/-- Modelled from the spec: the shipped configuration file
(`config/app_config.json`, a data file outside `src/`) populates
`scenarios.available_scenarios` with the six enumerated scenario ids
("scenario_id is always one of the enumerated six values") and
`scenarios.current_scenario` with the default `normal`. -/
def specScenariosConfig : ConfigState :=
  let tree := CVal.obj
    [ (str "scenarios", CVal.obj
        [ (str "current_scenario", CVal.str (str "normal"))
        , (str "available_scenarios", CVal.obj
            [ (str "normal", CVal.obj [(str "name", CVal.str (str "普通场景")), (str "icon", CVal.str (str "🏕️"))])
            , (str "zombie", CVal.obj [(str "name", CVal.str (str "僵尸末日")), (str "icon", CVal.str (str "🧟"))])
            , (str "biochemical", CVal.obj [(str "name", CVal.str (str "生化危机")), (str "icon", CVal.str (str "☣️"))])
            , (str "nuclear", CVal.obj [(str "name", CVal.str (str "核辐射")), (str "icon", CVal.str (str "☢️"))])
            , (str "alien", CVal.obj [(str "name", CVal.str (str "外星入侵")), (str "icon", CVal.str (str "👽"))])
            , (str "natural_disaster", CVal.obj [(str "name", CVal.str (str "自然灾害")), (str "icon", CVal.str (str "🌪️"))]) ]) ]) ]
  { mem := tree, file := tree }

/-! ### Basic rule engine (`QAEngine._process_with_basic_engine` and helpers) -/

/-- Python `str.strip()`: remove leading and trailing whitespace. -/
def pyStrip (s : Str) : Str :=
  ((s.dropWhile Char.isWhitespace).reverse.dropWhile Char.isWhitespace).reverse

/-- `QAEngine._preprocess_question`: lower-case, delete every character
that is neither a word character nor whitespace (`re.sub(r'[^\w\s]', '')`),
and strip. -/
def preprocessQuestion (q : Str) : Str :=
  pyStrip ((pyLower q).filter (fun c => isWordChar c || c.isWhitespace))

/-- `QAEngine._build_response_templates`: the static template table. -/
def responseTemplates : List (Str × List Str) :=
  [ (str "greeting",
      [ str "您好！我是您的AI生存向导，很高兴为您服务！🎯"
      , str "欢迎使用AI末日生存求生向导！我将为您提供专业的生存建议。💪"
      , str "您好！请告诉我您遇到的生存问题，我会尽力帮助您。🔥" ])
  , (str "water_advice",
      [ str "关于水源问题，这是生存中最重要的需求之一。💧"
      , str "水是生命之源，让我为您提供寻找和净化水源的建议。🌊"
      , str "在野外获取安全饮用水是关键技能，以下是一些方法：💦" ])
  , (str "food_advice",
      [ str "关于食物获取，我来为您介绍一些野外觅食的方法。🍖"
      , str "在野外寻找食物需要谨慎，让我分享一些安全的方法。🌿"
      , str "食物是维持体力的重要来源，以下是一些获取方法：🥜" ])
  , (str "shelter_advice",
      [ str "搭建庇护所是保护自己免受恶劣天气影响的重要技能。🏠"
      , str "一个好的庇护所能够保命，让我教您如何搭建。⛺"
      , str "庇护所的选择和搭建有很多要点需要注意：🛡️" ])
  , (str "medical_advice",
      [ str "医疗急救知识在紧急情况下非常重要。🏥"
      , str "处理伤口和急救是生存技能的重要组成部分。💊"
      , str "让我为您介绍一些基础的急救处理方法：🩹" ])
  , (str "fire_advice",
      [ str "生火是野外生存的基本技能之一。🔥"
      , str "火能提供温暖、烹饪食物和信号求救。🔥"
      , str "掌握生火技巧对野外生存至关重要：🔥" ])
  , (str "no_match",
      [ str "抱歉，我没有完全理解您的问题。请尝试更具体地描述您的情况。🤔"
      , str "您的问题很有趣，但我需要更多信息才能给出准确建议。💭"
      , str "请尝试用不同的方式描述您的问题，或者查看其他选项卡中的内容。📚" ]) ]

/-- `random.choice` on a non-empty list, with the random draw modelled
by an oracle index taken modulo the list length. -/
def pyChoice (l : List Str) (k : ℕ) : Str := (l.get? (k % l.length)).getD []

/-- `QAEngine._get_random_template`: a randomly chosen template of the
requested type, with the source's fallback singleton for unknown
types. -/
def getRandomTemplate (templateType : Str) (k : ℕ) : Str :=
  pyChoice ((responseTemplates.lookup templateType).getD [str "我会尽力帮助您解决问题。"]) k

/-- `QAEngine._handle_greeting` (the one intent handler that draws a
random template). -/
def handleGreeting (k : ℕ) : Str :=
  getRandomTemplate (str "greeting") k
    ++ str "\n\n请告诉我您遇到的具体生存问题，比如：\n• 如何寻找水源？\n• 怎样搭建庇护所？\n• 野外可食用植物有哪些？\n• 如何处理外伤？"

/-- `QAEngine._handle_water_search`. -/
def handleWaterSearch : Str :=
  str "🌊 寻找水源的方法：\n\n1. 🏞️ 寻找自然水源：河流、溪流、湖泊\n2. 🌧️ 收集雨水：使用容器、防水布\n3. 🌿 从植物获取：竹子、仙人掌、树液\n4. 💧 地下水：挖掘低洼地带\n5. 🌅 露水收集：清晨用布料收集\n\n⚠️ 重要提醒：任何水源都需要净化后才能饮用！"

/-- `QAEngine._handle_water_purify`. -/
def handleWaterPurify : Str :=
  str "🔥 水源净化方法：\n\n1. 🔥 煮沸消毒：煮沸5-10分钟杀死细菌\n2. 🧪 净水片：按说明使用化学净水片\n3. 🏺 过滤净化：沙子、木炭、布料分层过滤\n4. ☀️ 紫外线消毒：透明瓶装水日晒6小时\n5. 🧂 盐水沉淀：加盐静置让杂质沉淀\n\n💡 建议：多种方法结合使用效果更好！"

/-- `QAEngine._handle_water_shortage`. -/
def handleWaterShortage : Str :=
  str "💦 缺水应急措施：\n\n1. 🚨 立即寻找水源，优先级最高\n2. 💧 节约用水，小口慢饮\n3. 🌡️ 避免出汗，减少活动\n4. 🍃 寻找含水植物：仙人掌、竹子\n5. 🌧️ 准备收集雨水的容器\n\n⚠️ 警告：人体缺水3天就有生命危险，请尽快找到水源！"

/-- `QAEngine._handle_food_search`. -/
def handleFoodSearch : Str :=
  str "🍖 野外觅食方法：\n\n1. 🌿 采集植物：蒲公英、车前草、野葱\n2. 🐟 捕鱼：制作简易鱼叉、陷阱\n3. 🐛 昆虫蛋白：蚂蚱、蚯蚓（去头尾内脏）\n4. 🥜 坚果种子：橡子、松子（需处理）\n5. 🍄 蘑菇：仅采集确认安全的品种\n\n⚠️ 安全第一：不确定的食物绝对不要吃！"

/-- `QAEngine._handle_edible_food` (also aliased by
`_handle_edible_plants`). -/
def handleEdibleFood : Str :=
  str "🌱 常见可食用野生植物：\n\n✅ 安全食用：\n• 蒲公英：整株可食，富含维生素\n• 车前草：叶子可生食或煮食\n• 野葱：有葱味，可调味\n• 马齿苋：肉质叶片，可生食\n\n❌ 避免食用：\n• 颜色鲜艳的浆果\n• 有乳白色汁液的植物\n• 三叶植物（可能有毒）\n\n🧪 可食性测试：皮肤→嘴唇→舌尖→少量吞咽"

/-- `QAEngine._handle_shelter_build`. -/
def handleShelterBuild : Str :=
  str "🏠 搭建庇护所步骤：\n\n1. 📍 选择位置：高地、避风、近水源\n2. 🌳 收集材料：树枝、树叶、石头\n3. 🏗️ 搭建框架：A字形或倾斜式\n4. 🍃 覆盖材料：树叶、草、防水布\n5. 🛡️ 防风防雨：加固结构，排水沟\n6. 🔥 保温措施：铺垫干草、反射热源\n\n💡 原则：干燥、保温、通风、隐蔽"

/-- `QAEngine._handle_shelter_location`. -/
def handleShelterLocation : Str :=
  str "🗺️ 选择过夜地点原则：\n\n✅ 理想位置：\n• 地势较高，避免积水\n• 背风面，减少风寒\n• 靠近水源但不太近\n• 有天然屏障（岩石、大树）\n\n❌ 避免地点：\n• 河床、低洼地（洪水风险）\n• 山顶（风大寒冷）\n• 动物路径附近\n• 枯树下（倒塌风险）\n\n🌙 夜间安全：保持警觉，准备逃生路线"

/-- `QAEngine._handle_medical_injury` (also aliased by
`_handle_medical_treatment`). -/
def handleMedicalInjury : Str :=
  str "🏥 外伤处理步骤：\n\n1. 🧤 清洁双手，避免感染\n2. 🩸 评估伤情，优先止血\n3. 🧽 清洁伤口，去除异物\n4. 🤲 直接压迫止血\n5. 📈 抬高受伤部位\n6. 🩹 包扎固定，定期检查\n\n🚨 严重情况：大量出血、骨折外露、意识不清时，立即寻求专业医疗帮助！"

/-- `QAEngine._handle_medical_poisoning`. -/
def handleMedicalPoisoning : Str :=
  str "☠️ 中毒应急处理：\n\n1. 🚫 立即停止摄入可疑物质\n2. 💧 大量饮用清水稀释毒素\n3. 🤮 诱导呕吐（非腐蚀性毒物）\n4. 🧂 服用活性炭（如有）\n5. 🌡️ 保持体温，观察症状\n6. 📝 记录摄入物质和时间\n\n⚠️ 注意：腐蚀性毒物（强酸强碱）不要催吐！\n🚨 严重症状时立即寻求医疗救助！"

/-- `QAEngine._handle_fire_making`. -/
def handleFireMaking : Str :=
  str "🔥 生火基本步骤：\n\n1. 🍃 准备火绒：干草、纸屑、桦树皮\n2. 🌿 收集引火物：细树枝、干叶\n3. 🪵 准备燃料：粗细不同的干木材\n4. 🏗️ 搭建火堆：锥形或井字形\n5. 🔥 点燃火绒，逐步添加燃料\n6. 💨 适当通风，维持火势\n\n💡 生火三要素：燃料、氧气、热源\n🛡️ 安全提醒：选择安全地点，准备灭火材料"

/-- `QAEngine._handle_fire_no_tools`. -/
def handleFireNoTools : Str :=
  str "🔥 无工具生火方法：\n\n1. 🪨 火石打火：硬石头撞击产生火花\n2. 🌳 钻木取火：干木棒快速摩擦\n3. 🔍 放大镜聚焦：阳光聚焦点燃火绒\n4. 🔋 电池短路：电池两极用金属丝连接\n5. 🧊 冰透镜：制作冰块透镜聚光\n\n🎯 关键：准备充足的火绒和引火物\n💪 需要：耐心和持续的努力"

/-- `QAEngine._handle_navigation_lost`. -/
def handleNavigationLost : Str :=
  str "🧭 迷路时的应对方法：\n\n1. 🛑 停下来，保持冷静\n2. 🗺️ 回忆来路，寻找地标\n3. 📍 标记当前位置\n4. 🔍 寻找高点观察地形\n5. 🌊 跟随水流下山\n6. 📢 发出求救信号\n\n🚨 重要：不要盲目乱走，消耗体力\n💡 信号方法：三声哨响、烟火、反光镜"

/-- `QAEngine._handle_navigation_direction`. -/
def handleNavigationDirection : Str :=
  str "🧭 野外辨别方向方法：\n\n☀️ 太阳定位：\n• 日出东方，日落西方\n• 中午太阳在南方（北半球）\n\n⭐ 星座定位：\n• 北极星指向正北\n• 通过北斗七星寻找北极星\n\n🌳 自然指标：\n• 树木南面枝叶茂盛\n• 岩石南面干燥\n• 蚂蚁洞口朝南\n\n🕐 手表定位：时针指向太阳，12点方向的一半是南方"

/-- `QAEngine._handle_danger_animals`. -/
def handleDangerAnimals : Str :=
  str "🐻 遇到危险动物的应对：\n\n🐻 大型动物（熊、野猪）：\n• 不要跑，缓慢后退\n• 举起双手显得更大\n• 大声说话，不要尖叫\n\n🐍 毒蛇：\n• 保持距离，不要挑逗\n• 缓慢移动，避免突然动作\n• 穿长裤长靴防护\n\n🦎 一般原则：\n• 制造噪音，提前警告\n• 避免在动物活跃时间行动\n• 妥善存放食物"

/-- `QAEngine._handle_danger_plants`. -/
def handleDangerPlants : Str :=
  str "☠️ 识别有毒植物：\n\n⚠️ 危险特征：\n• 鲜艳的颜色（红、橙、紫）\n• 乳白色汁液\n• 三叶结构\n• 强烈异味\n• 表面有刺毛\n\n🧪 安全测试：\n1. 皮肤接触测试\n2. 嘴唇轻触测试\n3. 舌尖品尝测试\n4. 少量吞咽测试\n\n🚫 绝对避免：不认识的蘑菇、浆果\n💡 原则：不确定就不吃！"

/-- `QAEngine._generate_response`: the `response_map` dispatch on the
matched intent tag (`_handle_edible_plants` and
`_handle_medical_treatment` are aliases in the source), falling back to
a random no-match template. -/
def generateResponse (questionType : Str) (k : ℕ) : Str :=
  if questionType = str "greeting" then handleGreeting k
  else if questionType = str "water_search" then handleWaterSearch
  else if questionType = str "water_purify" then handleWaterPurify
  else if questionType = str "water_shortage" then handleWaterShortage
  else if questionType = str "food_search" then handleFoodSearch
  else if questionType = str "edible_food" then handleEdibleFood
  else if questionType = str "edible_plants" then handleEdibleFood
  else if questionType = str "shelter_build" then handleShelterBuild
  else if questionType = str "shelter_location" then handleShelterLocation
  else if questionType = str "medical_injury" then handleMedicalInjury
  else if questionType = str "medical_treatment" then handleMedicalInjury
  else if questionType = str "medical_poisoning" then handleMedicalPoisoning
  else if questionType = str "fire_making" then handleFireMaking
  else if questionType = str "fire_no_tools" then handleFireNoTools
  else if questionType = str "navigation_lost" then handleNavigationLost
  else if questionType = str "navigation_direction" then handleNavigationDirection
  else if questionType = str "danger_animals" then handleDangerAnimals
  else if questionType = str "danger_plants" then handleDangerPlants
  else getRandomTemplate (str "no_match") k

/-- A knowledge-store record as consumed by the formatting code
(`title`, `category`, `content`, `difficulty_level`). -/
structure Knowledge where
  title : Str
  category : Str
  content : Str
  difficulty_level : ℕ

/-- Decimal rendering of a natural number, for the f-string counters. -/
def natToStr (n : ℕ) : Str := (Nat.repr n).data

/-- `QAEngine._format_search_results`: up to three results with title,
category, a star difficulty indicator and a 300-character excerpt, a
count of unshown results, and a closing tip. -/
def formatSearchResults (results : List Knowledge) (k : ℕ) : Str :=
  if results.isEmpty then getRandomTemplate (str "no_match") k
  else
    let entries := ((results.take 3).enum.map (fun p =>
      str "📖 " ++ natToStr (p.1 + 1) ++ str ". " ++ p.2.title ++ str "\n"
        ++ str "分类: " ++ p.2.category ++ str " | 难度: "
        ++ List.replicate p.2.difficulty_level '⭐' ++ str "\n"
        ++ p.2.content.take 300 ++ str "...\n\n")).flatten
    let extra :=
      if 3 < results.length then
        str "还有 " ++ natToStr (results.length - 3) ++ str " 条相关信息，请在搜索框中查看完整结果。\n\n"
      else []
    str "🔍 根据您的问题，我找到了以下相关信息：\n\n" ++ entries ++ extra
      ++ str "💡 提示：您可以在其他选项卡中查看更多专业内容。"

/-- `QAEngine._generate_category_response`: when the category query (an
oracle parameter) returns results, a category template followed by up to
two entries with 200-character excerpts; otherwise a lookup-failed
sentence plus a no-match template.  The template key
`f"{category.lower()}_advice"` is built from the (Chinese) category
name, exactly as in the source. -/
def generateCategoryResponse (category : Str) (categoryResults : List Knowledge) (k : ℕ) : Str :=
  if categoryResults.isEmpty then
    str "关于" ++ category ++ str "的问题，让我为您查找相关信息...\n\n"
      ++ getRandomTemplate (str "no_match") k
  else
    getRandomTemplate (pyLower category ++ str "_advice") k ++ str "\n\n"
      ++ ((categoryResults.take 2).map (fun r =>
            str "📌 " ++ r.title ++ str "\n" ++ r.content.take 200 ++ str "...\n\n")).flatten
      ++ str "💡 提示：您可以在\x27生存知识\x27选项卡中查看更多详细信息。"

/-- `QAEngine._process_with_basic_engine`: the strict fallback chain —
pattern match, then keyword classification, then database search (the
store's answers are oracle parameters), then a random no-match
template. -/
def processWithBasicEngine (question : Str) (searchResults categoryResults : List Knowledge)
    (k : ℕ) : Str :=
  let p := preprocessQuestion question
  match matchQuestionPattern p with
  | some t => generateResponse t k
  | none =>
    match matchKeywords p with
    | some c => generateCategoryResponse c categoryResults k
    | none =>
      if searchResults.isEmpty then getRandomTemplate (str "no_match") k
      else formatSearchResults searchResults k

/-! ### Advanced composer (`QAEngine._process_with_advanced_ai`) -/

/-- The dict returned by `LLMManager.generate_response`, restricted to
the fields the composer reads. -/
structure LLMResult where
  success : Bool
  response : Str

/-- `dict.get(key, default)` for the string-valued fields read by the
composer. -/
def dictGetStrD (d : List (Str × CVal)) (k : Str) (deflt : Str) : Str :=
  match d.lookup k with
  | some (CVal.str s) => s
  | _ => deflt

/-- `scenario_response.get("response")` as an optional string (the
processors store strings under this key). -/
def scenarioRespText (sr : List (Str × CVal)) : Option Str :=
  match sr.lookup (str "response") with
  | some (CVal.str s) => some s
  | _ => none

/-- `QAEngine._process_with_advanced_ai`, with the collaborator outputs
as oracle parameters: the scenario router's dict, the remote responder's
result, the current model info, the current scenario info, and the
lazily-computed basic-engine answer.  When the router's `response` field
is truthy it is returned at once; only otherwise is the remote result
consulted, formatted with the scenario header and, for non-local models,
the attribution footer; a failed remote call falls back to the router's
`response` value if the key exists, else to the basic engine. -/
def processWithAdvancedAI (sr : List (Str × CVal)) (llm : LLMResult)
    (modelId modelName : Str) (scenarioInfo : List (Str × CVal)) (basic : Str) : Str :=
  if ¬ sr.isEmpty ∧ (scenarioRespText sr).getD [] ≠ [] then (scenarioRespText sr).getD []
  else if llm.success then
    let scenarioName := dictGetStrD scenarioInfo (str "name") (str "普通场景")
    let scenarioIcon := dictGetStrD scenarioInfo (str "icon") (str "🏕️")
    let formatted := scenarioIcon ++ str " 【" ++ scenarioName ++ str "场景】\n\n" ++ llm.response
    if modelId ≠ str "local" then formatted ++ str "\n\n🤖 由 " ++ modelName ++ str " 提供支持"
    else formatted
  else (scenarioRespText sr).getD basic

/-- The composer step as claim C2 words it (for the refutation): on a
non-empty router text the remote responder is additionally called, a
successful remote call yields header + remote body (+ footer), and only
a failed one yields the router text; the remaining cases follow the
code. -/
def claimComposeC2 (sr : List (Str × CVal)) (llm : LLMResult)
    (modelId modelName : Str) (scenarioInfo : List (Str × CVal)) (basic : Str) : Str :=
  let scenarioName := dictGetStrD scenarioInfo (str "name") (str "普通场景")
  let scenarioIcon := dictGetStrD scenarioInfo (str "icon") (str "🏕️")
  let formatted := scenarioIcon ++ str " 【" ++ scenarioName ++ str "场景】\n\n" ++ llm.response
  let withFooter :=
    if modelId ≠ str "local" then formatted ++ str "\n\n🤖 由 " ++ modelName ++ str " 提供支持"
    else formatted
  if ¬ sr.isEmpty ∧ (scenarioRespText sr).getD [] ≠ [] then
    (if llm.success then withFooter else (scenarioRespText sr).getD [])
  else if llm.success then withFooter
  else (scenarioRespText sr).getD basic

/-- `ScenarioHandler._process_normal_scenario`: the fixed dict returned
for the normal scenario. -/
def processNormalScenario : List (Str × CVal) :=
  [ (str "response", CVal.str (str "这是普通野外生存场景的建议。请查看生存知识和技能指导获取详细信息。"))
  , (str "scenario", CVal.str (str "normal"))
  , (str "threat_level", CVal.str (str "low"))
  , (str "recommendations", CVal.arr [CVal.str (str "基础生存技能"), CVal.str (str "环境适应"), CVal.str (str "资源管理")]) ]

/-- `QAEngine.process_question` in advanced mode with the default
active scenario `normal` (so `process_scenario_question` dispatches to
`_process_normal_scenario`): empty/whitespace questions get the fixed
prompt, everything else goes through `_process_with_advanced_ai`. -/
def processQuestionAdvancedNormal (question : Str) (llm : LLMResult)
    (modelId modelName : Str) (scenarioInfo : List (Str × CVal))
    (searchResults categoryResults : List Knowledge) (k : ℕ) : Str :=
  if pyStrip question = [] then str "请输入您的问题，我会尽力为您解答。😊"
  else
    processWithAdvancedAI processNormalScenario llm modelId modelName scenarioInfo
      (processWithBasicEngine question searchResults categoryResults k)

/-! ## Theorems -/

/-- Helper: a constant map sums to the constant times the length. -/
theorem sum_map_const {α : Type} (l : List α) (k : ℕ) :
    (l.map (fun _ => k)).sum = k * l.length := by
  induction l with
  | nil => simp
  | cons a t ih =>
    simp only [List.map_cons, List.sum_cons, ih, List.length_cons, Nat.mul_succ]
    omega

/-- Helper: Python's `max(..., key=snd)` fold splits its input around
the returned element — everything before it scores strictly less,
everything after scores no more.  This is exactly "first element with
maximal key". -/
theorem foldMaxDecomp {α : Type} (l : List (α × ℕ)) :
    ∀ x : α × ℕ, ∃ l₁ l₂ : List (α × ℕ),
      x :: l = l₁ ++ (l.foldl (fun b y => if b.2 < y.2 then y else b) x) :: l₂ ∧
      (∀ p ∈ l₁, p.2 < (l.foldl (fun b y => if b.2 < y.2 then y else b) x).2) ∧
      (∀ p ∈ l₂, p.2 ≤ (l.foldl (fun b y => if b.2 < y.2 then y else b) x).2) := by
  induction l with
  | nil => exact fun x => ⟨[], [], rfl, by simp, by simp⟩
  | cons y t ih =>
    intro x
    by_cases h : x.2 < y.2
    · have hs : (y :: t).foldl (fun b y => if b.2 < y.2 then y else b) x
          = t.foldl (fun b y => if b.2 < y.2 then y else b) y := by
        simp only [List.foldl_cons, if_pos h]
      rw [hs]
      obtain ⟨m₁, m₂, he, hlt, hle⟩ := ih y
      have hxr : x.2 < (t.foldl (fun b y => if b.2 < y.2 then y else b) y).2 := by
        cases m₁ with
        | nil =>
          simp only [List.nil_append, List.cons.injEq] at he
          rw [← he.1]; exact h
        | cons z m₁ =>
          simp only [List.cons_append, List.cons.injEq] at he
          have hz := hlt z (List.mem_cons_self z m₁)
          rw [← he.1] at hz
          exact lt_trans h hz
      refine ⟨x :: m₁, m₂, ?_, ?_, hle⟩
      · rw [List.cons_append, he]
      · intro p hp
        rcases List.mem_cons.mp hp with hp | hp
        · rw [hp]; exact hxr
        · exact hlt p hp
    · have hs : (y :: t).foldl (fun b y => if b.2 < y.2 then y else b) x
          = t.foldl (fun b y => if b.2 < y.2 then y else b) x := by
        simp only [List.foldl_cons, if_neg h]
      rw [hs]
      obtain ⟨m₁, m₂, he, hlt, hle⟩ := ih x
      cases m₁ with
      | nil =>
        simp only [List.nil_append, List.cons.injEq] at he
        refine ⟨[], y :: m₂, ?_, by simp, ?_⟩
        · rw [List.nil_append, ← he.1, he.2]
        · intro p hp
          rcases List.mem_cons.mp hp with hp | hp
          · rw [hp, ← he.1]; exact Nat.le_of_not_lt h
          · exact hle p hp
      | cons z m₁ =>
        simp only [List.cons_append, List.cons.injEq] at he
        refine ⟨x :: y :: m₁, m₂, ?_, ?_, hle⟩
        · conv_lhs => rw [he.2]
          rw [List.cons_append, List.cons_append]
        · intro p hp
          have hxlt : x.2 < (t.foldl (fun b y => if b.2 < y.2 then y else b) x).2 := by
            have hz := hlt z (List.mem_cons_self z m₁)
            rw [← he.1] at hz
            exact hz
          rcases List.mem_cons.mp hp with hp | hp
          · rw [hp]; exact hxlt
          · rcases List.mem_cons.mp hp with hp | hp
            · rw [hp]; exact lt_of_le_of_lt (Nat.le_of_not_lt h) hxlt
            · exact hlt p (List.mem_cons_of_mem z hp)

/-- C1.  The claim's algorithm (sum the character-length of every
keyword occurring as a substring of the lower-cased input) disagrees
with `QAEngine._match_keywords` on the input `水 帐篷`: the code
tokenises and sums fuzzy-similarity weights, scoring the water category
660 (one exact and seven substring keyword hits for the token 水)
against 100 for shelter, while the claimed length-weighted scoring gives
water 1 and shelter 2.  (The claim's own instance — a 4-character
shelter keyword — cannot even arise: every shelter keyword has at most
3 characters.) -/
theorem matchKeywords_ne_lengthSpec :
    matchKeywords (str "水 帐篷") = some (str "水源") ∧
    classifySpecC1 (str "水 帐篷") = some (str "庇护所") ∧
    matchKeywords (str "水 帐篷") ≠ classifySpecC1 (str "水 帐篷") := by
  refine ⟨by decide, by decide, by decide⟩

/-- C1 (amended).  `QAEngine._match_keywords` scores each category by
summing, over the tokens of the input and the category's keywords, the
fallback fuzzy similarity (100 for equality, 80 when one string contains
the other, 0 otherwise) whenever it exceeds 70, and returns the first
category (in map declaration order) whose positive score is maximal:
whenever it returns a category, that category splits the score list into
strictly smaller predecessors and no-larger successors, and its score is
positive. -/
theorem matchKeywords_first_max (q c : Str) (h : matchKeywords q = some c) :
    ∃ (s : ℕ) (l₁ l₂ : List (Str × ℕ)),
      categoryScores q = l₁ ++ (c, s) :: l₂ ∧ 0 < s ∧
      (∀ p ∈ l₁, p.2 < s) ∧ (∀ p ∈ l₂, p.2 ≤ s) := by
  unfold matchKeywords pyMaxBySnd at h
  cases hcs : categoryScores q with
  | nil => rw [hcs] at h; simp at h
  | cons x xs =>
    rw [hcs] at h
    simp only [Option.map_some] at h
    obtain ⟨l₁, l₂, he, hlt, hle⟩ := foldMaxDecomp xs x
    have hr : (xs.foldl (fun b y => if b.2 < y.2 then y else b) x)
        = (c, (xs.foldl (fun b y => if b.2 < y.2 then y else b) x).2) := by
      have hfst : (xs.foldl (fun b y => if b.2 < y.2 then y else b) x).1 = c := by
        simpa using h
      rw [← hfst]
    have hmem : (xs.foldl (fun b y => if b.2 < y.2 then y else b) x) ∈ categoryScores q := by
      rw [hcs, he]
      exact List.mem_append_right _ (List.mem_cons_self _ _)
    have hpos : 0 < (xs.foldl (fun b y => if b.2 < y.2 then y else b) x).2 := by
      unfold categoryScores at hmem
      have := List.of_mem_filter hmem
      simpa using this
    refine ⟨(xs.foldl (fun b y => if b.2 < y.2 then y else b) x).2, l₁, l₂, ?_, hpos, hlt, hle⟩
    rw [← hr]
    exact he

/-- Witness for C1 (amended) at the concrete input `水 帐篷`, whose
winning category is 水源. -/
theorem matchKeywords_first_max_witness :
    ∃ (s : ℕ) (l₁ l₂ : List (Str × ℕ)),
      categoryScores (str "水 帐篷") = l₁ ++ (str "水源", s) :: l₂ ∧ 0 < s ∧
      (∀ p ∈ l₁, p.2 < s) ∧ (∀ p ∈ l₂, p.2 ≤ s) :=
  matchKeywords_first_max (str "水 帐篷") (str "水源") (by decide)

/-- C3.  Counterexample: the urban and night markers tested by
`_adjust_threat_level` are the Chinese strings 城市/市区 and 夜晚/晚上;
the English strings "city center" and "night" contain none of them, so
in the nuclear scenario the call returns clamp(3+0) = 3, not the claimed
clamp(3+1+1) = 5. -/
theorem adjustThreat_english_markers_cex :
    adjustThreatLevel (str "nuclear") 3 (str "city center") (str "night") = 3 ∧
    adjustThreatLevel (str "nuclear") 3 (str "city center") (str "night") ≠ 5 :=
  ⟨by decide, by decide⟩

/-- C3 (amended).  With an urban location (城市中心 contains the urban
marker 城市) and a night time-of-day (夜晚), a base danger level of 3 is
adjusted to clamp(3+1−1) = 3 in the zombie scenario (night lowers the
threat there) and to clamp(3+1+1) = 5 in the nuclear scenario; with the
English strings "city center"/"night" no marker fires and both scenarios
return 3. -/
theorem adjustThreat_urban_night_values :
    adjustThreatLevel (str "zombie") 3 (str "城市中心") (str "夜晚") = 3 ∧
    adjustThreatLevel (str "nuclear") 3 (str "城市中心") (str "夜晚") = 5 ∧
    adjustThreatLevel (str "zombie") 3 (str "city center") (str "night") = 3 :=
  ⟨by decide, by decide, by decide⟩

/-- C9.  For every scenario, base danger level in [1,5], location and
time-of-day, the adjusted danger level of `_adjust_threat_level` lies in
the closed range [1,5] (the final clamp guarantees it). -/
theorem adjustThreat_range (sc : Str) (base : ℤ) (loc t : Str)
    (h1 : 1 ≤ base) (h2 : base ≤ 5) :
    1 ≤ adjustThreatLevel sc base loc t ∧ adjustThreatLevel sc base loc t ≤ 5 := by
  unfold adjustThreatLevel
  exact ⟨le_max_left 1 _, max_le (by norm_num) (min_le_left 5 _)⟩

/-- Witness for C9 at a concrete threat. -/
theorem adjustThreat_range_witness :
    (1 : ℤ) ≤ 3 ∧ (3 : ℤ) ≤ 5 ∧
    (1 ≤ adjustThreatLevel (str "zombie") 3 (str "城市") (str "白天") ∧
      adjustThreatLevel (str "zombie") 3 (str "城市") (str "白天") ≤ 5) :=
  ⟨by norm_num, by norm_num,
    adjustThreat_range (str "zombie") 3 (str "城市") (str "白天") (by norm_num) (by norm_num)⟩

/-- Helper: a single-group pattern matches every text containing one of
its alternatives as a substring. -/
theorem patMatchesFrom_single_of_infix (g : List Str) (a : Str) (ha : a ∈ g) (q : Str)
    (h : a <:+: q) : patMatchesFrom [g] q = true := by
  obtain ⟨u, v, huv⟩ := h
  rw [patMatchesFrom, List.any_eq_true]
  have hlen : u.length ≤ q.length := by
    rw [← huv]
    simp [List.length_append]
  refine ⟨u.length, List.mem_range.mpr (Nat.lt_succ_of_le hlen), ?_⟩
  rw [List.any_eq_true]
  refine ⟨a, ha, ?_⟩
  have hdrop : q.drop u.length = a ++ v := by
    rw [← huv, List.append_assoc, List.drop_left]
  rw [hdrop]
  simp [List.prefix_append, patMatchesFrom]

/-- C7.  `QAEngine._match_question_pattern` returns the intent of the
first matching pattern in declaration order, so every input containing
the greeting phrase 你好 — whatever else it contains — is classified as
`greeting`, because the greeting pattern is declared first. -/
theorem matchPattern_greeting_first (q : Str) (h : str "你好" <:+: q) :
    matchQuestionPattern q = some (str "greeting") := by
  have hm : patMatchesFrom [[str "你好", str "您好", str "hi", str "hello"]] q = true :=
    patMatchesFrom_single_of_infix _ (str "你好") (List.mem_cons_self _ _) q h
  unfold matchQuestionPattern questionPatterns
  simp only [List.find?, hm, cond_true]
  rfl

/-- Witness for C7 at an input that also contains the domain keywords
水 and 帐篷 after the greeting. -/
theorem matchPattern_greeting_first_witness :
    (str "你好" <:+: str "你好水帐篷") ∧
    matchQuestionPattern (str "你好水帐篷") = some (str "greeting") :=
  ⟨by decide, matchPattern_greeting_first (str "你好水帐篷") (by decide)⟩

/-- Helper: one symptom's contributions sum to 10 per critical match
plus 5 per high-risk match. -/
theorem symptomMatches_score (s : Str) :
    ((symptomMatches s).map Prod.fst).sum =
      10 * (criticalSymptoms.filter (fun c => decide (c <:+: pyLower s))).length
        + 5 * (highRiskSymptoms.filter (fun h => decide (h <:+: pyLower s))).length := by
  unfold symptomMatches
  rw [List.map_append, List.sum_append, List.map_map, List.map_map]
  have h10 : (Prod.fst ∘ fun c : Str => ((10 : ℕ), str "危急症状：" ++ c)) = fun _ => 10 := rfl
  have h5 : (Prod.fst ∘ fun h : Str => ((5 : ℕ), str "高危症状：" ++ h)) = fun _ => 5 := rfl
  rw [h10, h5, sum_map_const, sum_map_const]

/-- Helper: the symptom-loop contributions of a whole symptom list sum
to 10·countCrit + 5·countHigh. -/
theorem contribs_score (symptoms : List Str) :
    (((symptoms.map symptomMatches).flatten).map Prod.fst).sum =
      10 * countCrit symptoms + 5 * countHigh symptoms := by
  induction symptoms with
  | nil => simp [countCrit, countHigh]
  | cons s t ih =>
    simp only [List.map_cons, List.flatten_cons, List.map_append, List.sum_append, ih,
      symptomMatches_score, countCrit, countHigh, List.sum_cons]
    ring

/-- Helper: one contribution (and so one risk-factor note) is produced
per critical or high-risk match. -/
theorem contribs_length (symptoms : List Str) :
    ((symptoms.map symptomMatches).flatten).length =
      countCrit symptoms + countHigh symptoms := by
  induction symptoms with
  | nil => simp [countCrit, countHigh]
  | cons s t ih =>
    simp only [List.map_cons, List.flatten_cons, List.length_append, ih,
      countCrit, countHigh, List.sum_cons]
    have hs : (symptomMatches s).length =
        (criticalSymptoms.filter (fun c => decide (c <:+: pyLower s))).length +
          (highRiskSymptoms.filter (fun h => decide (h <:+: pyLower s))).length := by
      simp [symptomMatches]
    rw [hs]
    ring

/-- Helper: the severity score of `assess_emergency_severity` is
10·countCrit + 5·countHigh plus the vital-signs contributions. -/
theorem assess_score_eq (symptoms : List Str) (vs : Option (List (Str × ℚ))) :
    (assessEmergencySeverity symptoms vs).severity_score =
      10 * countCrit symptoms + 5 * countHigh symptoms +
        ((vitalMatches vs).map Prod.fst).sum := by
  show (List.map Prod.fst ((symptoms.map symptomMatches).flatten ++ vitalMatches vs)).sum = _
  rw [List.map_append, List.sum_append, contribs_score]

/-- Helper: the severity level is the 15/10/5 thresholding of the
score. -/
theorem assess_level_eq (symptoms : List Str) (vs : Option (List (Str × ℚ))) :
    (assessEmergencySeverity symptoms vs).severity_level =
      (if 15 ≤ (assessEmergencySeverity symptoms vs).severity_score then EmergencyLevel.CRITICAL
       else if 10 ≤ (assessEmergencySeverity symptoms vs).severity_score then EmergencyLevel.HIGH
       else if 5 ≤ (assessEmergencySeverity symptoms vs).severity_score then
         EmergencyLevel.MEDIUM
       else EmergencyLevel.LOW) := rfl

/-- Helper: monitoring is required exactly at score ≥ 5. -/
theorem assess_monitoring_eq (symptoms : List Str) (vs : Option (List (Str × ℚ))) :
    (assessEmergencySeverity symptoms vs).monitoring_required
      = decide (5 ≤ (assessEmergencySeverity symptoms vs).severity_score) := rfl

/-- Helper: one risk-factor note per symptom or vital-sign match. -/
theorem assess_risk_length (symptoms : List Str) (vs : Option (List (Str × ℚ))) :
    (assessEmergencySeverity symptoms vs).risk_factors.length =
      countCrit symptoms + countHigh symptoms + (vitalMatches vs).length := by
  show (List.map Prod.snd ((symptoms.map symptomMatches).flatten ++ vitalMatches vs)).length = _
  rw [List.length_map, List.length_append, contribs_length]

/-- C4.  Counterexample: the symptom list [意识不清, 高烧] contains
exactly one critical phrase (意识不清) and no vital signs, yet
`assess_emergency_severity` scores it 15 (the high-risk phrase 高烧 adds
5) and reports CRITICAL, not the claimed score 10 / level HIGH. -/
theorem assess_one_critical_cex :
    countCrit [str "意识不清", str "高烧"] = 1 ∧
    (assessEmergencySeverity [str "意识不清", str "高烧"] none).severity_score = 15 ∧
    (assessEmergencySeverity [str "意识不清", str "高烧"] none).severity_level
      = EmergencyLevel.CRITICAL :=
  ⟨by decide, by decide, by decide⟩

/-- C4 (amended).  For symptom lists with exactly one critical-phrase
match, no high-risk-phrase match and no vital signs,
`assess_emergency_severity` returns score 10 and level HIGH (exactly the
HIGH threshold, below CRITICAL); with exactly two critical matches and
no high-risk matches it returns score 20, level CRITICAL, and exactly 2
risk factors. -/
theorem assess_critical_counts (s1 s2 : List Str)
    (h1 : countCrit s1 = 1) (h2 : countHigh s1 = 0)
    (h3 : countCrit s2 = 2) (h4 : countHigh s2 = 0) :
    (assessEmergencySeverity s1 none).severity_score = 10 ∧
    (assessEmergencySeverity s1 none).severity_level = EmergencyLevel.HIGH ∧
    (assessEmergencySeverity s2 none).severity_score = 20 ∧
    (assessEmergencySeverity s2 none).severity_level = EmergencyLevel.CRITICAL ∧
    (assessEmergencySeverity s2 none).risk_factors.length = 2 := by
  have e1 : (assessEmergencySeverity s1 none).severity_score = 10 := by
    rw [assess_score_eq, h1, h2]
    simp [vitalMatches]
  have e2 : (assessEmergencySeverity s2 none).severity_score = 20 := by
    rw [assess_score_eq, h3, h4]
    simp [vitalMatches]
  have el : (assessEmergencySeverity s2 none).risk_factors.length = 2 := by
    rw [assess_risk_length, h3, h4]
    simp [vitalMatches]
  refine ⟨e1, ?_, e2, ?_, el⟩
  · rw [assess_level_eq, e1]
    norm_num
  · rw [assess_level_eq, e2]
    norm_num

/-- Witness for C4 (amended): 休克 is one critical match; [休克, 胸痛]
are two. -/
theorem assess_critical_counts_witness :
    countCrit [str "休克"] = 1 ∧ countHigh [str "休克"] = 0 ∧
    countCrit [str "休克", str "胸痛"] = 2 ∧ countHigh [str "休克", str "胸痛"] = 0 ∧
    ((assessEmergencySeverity [str "休克"] none).severity_score = 10 ∧
     (assessEmergencySeverity [str "休克"] none).severity_level = EmergencyLevel.HIGH ∧
     (assessEmergencySeverity [str "休克", str "胸痛"] none).severity_score = 20 ∧
     (assessEmergencySeverity [str "休克", str "胸痛"] none).severity_level
        = EmergencyLevel.CRITICAL ∧
     (assessEmergencySeverity [str "休克", str "胸痛"] none).risk_factors.length = 2) :=
  ⟨by decide, by decide, by decide, by decide,
    assess_critical_counts [str "休克"] [str "休克", str "胸痛"]
      (by decide) (by decide) (by decide) (by decide)⟩

/-- C10.  Counterexample: the empty vital-signs dictionary is falsy in
Python (`if vital_signs:`), so `assess_emergency_severity` with no
matching symptoms and `vital_signs = {}` scores 0 and reports LOW with
no monitoring — not the claimed 10/HIGH/monitoring. -/
theorem assess_empty_vitals_cex :
    (assessEmergencySeverity [] (some [])).severity_score = 0 ∧
    (assessEmergencySeverity [] (some [])).severity_level = EmergencyLevel.LOW ∧
    (assessEmergencySeverity [] (some [])).monitoring_required = false :=
  ⟨by decide, by decide, by decide⟩

/-- C10 (amended).  For a NON-empty vital-signs dictionary lacking the
`pulse` and `breathing_rate` keys and whose `temperature` (36.5 when
absent) is inside [35,39], and symptoms with no critical or high-risk
match, the missing pulse and breathing rate default to 0, both count as
abnormal (+5 each), and the result is exactly score 10, level HIGH,
monitoring required; the empty dictionary instead behaves like supplying
no vital signs at all. -/
theorem assess_missing_vitals_default (symptoms : List Str) (d : List (Str × ℚ))
    (h1 : countCrit symptoms = 0) (h2 : countHigh symptoms = 0)
    (hd : d ≠ [])
    (hp : d.lookup (str "pulse") = none)
    (hb : d.lookup (str "breathing_rate") = none)
    (ht : ¬ ((d.lookup (str "temperature")).getD (36.5 : ℚ) < 35 ∨
        39 < (d.lookup (str "temperature")).getD (36.5 : ℚ))) :
    (assessEmergencySeverity symptoms (some d)).severity_score = 10 ∧
    (assessEmergencySeverity symptoms (some d)).severity_level = EmergencyLevel.HIGH ∧
    (assessEmergencySeverity symptoms (some d)).monitoring_required = true := by
  have hv : vitalMatches (some d) = [(5, str "心率异常"), (5, str "呼吸频率异常")] := by
    show (if d = [] then [] else _) = _
    rw [if_neg hd]
    simp only [hp, hb, Option.getD_none]
    rw [if_pos (Or.inl (by norm_num : (0 : ℚ) < 50)),
      if_pos (Or.inl (by norm_num : (0 : ℚ) < 10)), if_neg ht]
    rfl
  have e : (assessEmergencySeverity symptoms (some d)).severity_score = 10 := by
    rw [assess_score_eq, h1, h2, hv]
    simp
  refine ⟨e, ?_, ?_⟩
  · rw [assess_level_eq, e]
    norm_num
  · rw [assess_monitoring_eq, e]
    rfl

/-- Witness for C10 (amended): the dictionary holding only a normal
temperature. -/
theorem assess_missing_vitals_default_witness :
    ([(str "temperature", (36.5 : ℚ))] ≠ ([] : List (Str × ℚ))) ∧
    (([(str "temperature", (36.5 : ℚ))] : List (Str × ℚ)).lookup (str "pulse") = none) ∧
    ((assessEmergencySeverity [] (some [(str "temperature", (36.5 : ℚ))])).severity_score = 10 ∧
     (assessEmergencySeverity [] (some [(str "temperature", (36.5 : ℚ))])).severity_level
        = EmergencyLevel.HIGH ∧
     (assessEmergencySeverity [] (some [(str "temperature", (36.5 : ℚ))])).monitoring_required
        = true) :=
  ⟨by simp, rfl,
    assess_missing_vitals_default [] [(str "temperature", (36.5 : ℚ))]
      rfl rfl (by simp) rfl rfl
      (by
        rw [show List.lookup (str "temperature")
            [(str "temperature", (36.5 : ℚ))] = some (36.5 : ℚ) from rfl]
        simp only [Option.getD_some]
        norm_num)⟩

/-- C5.  Counterexample: from the default configuration, the successful
call `set("ai.current_model", "deepseek")` updates only the in-memory
tree — the file still lacks the key when the call returns, so the
mutation was not persisted. -/
theorem configSet_not_persisted_cex :
    (configSet ⟨defaultConfig, defaultConfig⟩ [str "ai", str "current_model"]
        (CVal.str (str "deepseek"))).1 = true ∧
    cfgGet (configSet ⟨defaultConfig, defaultConfig⟩ [str "ai", str "current_model"]
        (CVal.str (str "deepseek"))).2.mem [str "ai", str "current_model"]
      = some (CVal.str (str "deepseek")) ∧
    cfgGet (configSet ⟨defaultConfig, defaultConfig⟩ [str "ai", str "current_model"]
        (CVal.str (str "deepseek"))).2.file [str "ai", str "current_model"] = none ∧
    (configSet ⟨defaultConfig, defaultConfig⟩ [str "ai", str "current_model"]
        (CVal.str (str "deepseek"))).2.file ≠
      (configSet ⟨defaultConfig, defaultConfig⟩ [str "ai", str "current_model"]
        (CVal.str (str "deepseek"))).2.mem := by
  refine ⟨rfl, rfl, rfl, ?_⟩
  intro hcontra
  exact Option.noConfusion
    (congrArg (fun m => cfgGet m [str "ai", str "current_model"]) hcontra)

/-- C5 (amended).  `ConfigManager.set` mutates only the in-memory
configuration and never touches the file, whether or not it succeeds;
durable persistence happens only through the separate `save_config`
call, which callers such as `set_current_scenario` and `set_api_key`
invoke right after `set`. -/
theorem configSet_memory_only (cs : ConfigState) (keys : List Str) (v : CVal) :
    (configSet cs keys v).2.file = cs.file ∧
    (saveConfig cs).file = (saveConfig cs).mem := by
  constructor
  · cases hsp : setPath cs.mem keys v with
    | none => simp [configSet, hsp]
    | some m => simp [configSet, hsp]
  · rfl

/-- Helper: a cons cell whose key differs from the query is skipped by
`List.lookup`. -/
theorem lookup_cons_ne {β : Type} (k a : Str) (b : β) (es : List (Str × β))
    (h : (k == a) = false) : List.lookup k ((a, b) :: es) = List.lookup k es := by
  simp only [List.lookup]
  rw [h]

/-- Helper: a cons cell whose key matches the query is returned by
`List.lookup`. -/
theorem lookup_cons_self {β : Type} (k a : Str) (b : β) (es : List (Str × β))
    (h : (k == a) = true) : List.lookup k ((a, b) :: es) = some b := by
  simp only [List.lookup]
  rw [h]

/-- Helper: looking up the just-assigned key of a Python dict
assignment yields the assigned value (replace-in-place case). -/
theorem lookup_map_replace (d : List (Str × CVal)) (k : Str) (v : CVal)
    (h : d.any (fun p => p.1 == k) = true) :
    (d.map (fun p => if p.1 == k then (p.1, v) else p)).lookup k = some v := by
  induction d with
  | nil => simp at h
  | cons p t ih =>
    obtain ⟨a, b⟩ := p
    rw [List.map_cons]
    by_cases hk : a = k
    · rw [if_pos (show ((a, b).1 == k) = true by simpa using hk)]
      exact lookup_cons_self k a v _ (by simpa using hk.symm)
    · rw [if_neg (show ¬ ((a, b).1 == k) = true by simpa using hk)]
      have ht : t.any (fun p => p.1 == k) = true := by
        simp only [List.any_cons, Bool.or_eq_true] at h
        rcases h with h | h
        · exact absurd (show a = k by simpa using h) hk
        · exact h
      rw [lookup_cons_ne k a b _ (by simpa using Ne.symm hk)]
      exact ih ht

/-- Helper: looking up the just-assigned key of a Python dict
assignment yields the assigned value (append case). -/
theorem lookup_append_new (d : List (Str × CVal)) (k : Str) (v : CVal)
    (h : d.any (fun p => p.1 == k) = false) :
    (d ++ [(k, v)]).lookup k = some v := by
  induction d with
  | nil => exact lookup_cons_self k k v [] (by simp)
  | cons p t ih =>
    obtain ⟨a, b⟩ := p
    simp only [List.any_cons, Bool.or_eq_false_iff] at h
    have hk : ¬ a = k := by simpa using h.1
    rw [List.cons_append, lookup_cons_ne k a b _ (by simpa using Ne.symm hk)]
    exact ih h.2

/-- Helper: `d[k] = v` followed by `d[k]` yields `v`. -/
theorem lookup_insertOrReplace (d : List (Str × CVal)) (k : Str) (v : CVal) :
    (insertOrReplace d k v).lookup k = some v := by
  unfold insertOrReplace
  by_cases h : d.any (fun p => p.1 == k) = true
  · rw [if_pos h]
    exact lookup_map_replace d k v h
  · rw [if_neg h]
    have hf : d.any (fun p => p.1 == k) = false := by
      cases hb : d.any (fun p => p.1 == k) with
      | false => rfl
      | true => exact absurd hb h
    exact lookup_append_new d k v hf

/-- C8.  `set_current_scenario` with an id missing from
`scenarios.available_scenarios` returns failure and leaves the whole
state — active scenario, in-memory configuration and persisted file —
unchanged; `set_current_scenario("zombie")` (with zombie among the
available scenarios) returns success, and a subsequent
`get_current_scenario_info` reports `scenario_type = "zombie"` whatever
the database returns. -/
theorem setScenario_roundtrip (s : ScenarioState) (badId : Str)
    (dbInfo : List (Str × CVal))
    (hbad : dictContains (availableScenarios s.cfg) badId = false)
    (hz : dictContains (availableScenarios s.cfg) (str "zombie") = true) :
    setCurrentScenario s badId = (false, s) ∧
    (setCurrentScenario s (str "zombie")).1 = true ∧
    (getCurrentScenarioInfo (setCurrentScenario s (str "zombie")).2 dbInfo).lookup
        (str "scenario_type") = some (CVal.str (str "zombie")) := by
  have hcur : (setCurrentScenario s (str "zombie")).2.current = str "zombie" := by
    simp [setCurrentScenario, hz]
  refine ⟨?_, ?_, ?_⟩
  · simp [setCurrentScenario, hbad]
  · simp [setCurrentScenario, hz]
  · unfold getCurrentScenarioInfo
    rw [lookup_insertOrReplace, hcur]

/-- Witness for C8 over the spec-modelled shipped configuration. -/
theorem setScenario_roundtrip_witness :
    (dictContains (availableScenarios specScenariosConfig) (str "not_a_scenario") = false) ∧
    (dictContains (availableScenarios specScenariosConfig) (str "zombie") = true) ∧
    (setCurrentScenario ⟨str "normal", specScenariosConfig⟩ (str "not_a_scenario")
        = (false, ⟨str "normal", specScenariosConfig⟩) ∧
      (setCurrentScenario ⟨str "normal", specScenariosConfig⟩ (str "zombie")).1 = true ∧
      (getCurrentScenarioInfo
          (setCurrentScenario ⟨str "normal", specScenariosConfig⟩ (str "zombie")).2 []).lookup
        (str "scenario_type") = some (CVal.str (str "zombie"))) :=
  ⟨rfl, rfl,
    setScenario_roundtrip ⟨str "normal", specScenariosConfig⟩ (str "not_a_scenario") []
      rfl rfl⟩

/-- Helper: whenever the scenario router's `response` text is non-empty,
`_process_with_advanced_ai` returns it unchanged, for every remote
responder outcome. -/
theorem advancedAI_router_text (sr : List (Str × CVal)) (llm : LLMResult)
    (modelId modelName : Str) (scenarioInfo : List (Str × CVal)) (basic : Str)
    (h1 : ¬ sr.isEmpty = true) (h2 : (scenarioRespText sr).getD [] ≠ []) :
    processWithAdvancedAI sr llm modelId modelName scenarioInfo basic
      = (scenarioRespText sr).getD [] := by
  unfold processWithAdvancedAI
  rw [if_pos ⟨h1, h2⟩]

/-- C2.  Counterexample: with the normal scenario router's (non-empty)
dict and a successful remote responder, the composer returns the
router's text, not the header + remote body + footer the claim
predicts — the remote responder is never consulted on a scenario
hit. -/
theorem processAdvanced_ne_claimCompose :
    processWithAdvancedAI processNormalScenario ⟨true, str "远程生成的正文"⟩
        (str "deepseek") (str "DeepSeek AI")
        [(str "name", CVal.str (str "普通场景")), (str "icon", CVal.str (str "🏕️"))] []
      = str "这是普通野外生存场景的建议。请查看生存知识和技能指导获取详细信息。" ∧
    claimComposeC2 processNormalScenario ⟨true, str "远程生成的正文"⟩
        (str "deepseek") (str "DeepSeek AI")
        [(str "name", CVal.str (str "普通场景")), (str "icon", CVal.str (str "🏕️"))] []
      = str "🏕️ 【普通场景场景】\n\n远程生成的正文\n\n🤖 由 DeepSeek AI 提供支持" ∧
    processWithAdvancedAI processNormalScenario ⟨true, str "远程生成的正文"⟩
        (str "deepseek") (str "DeepSeek AI")
        [(str "name", CVal.str (str "普通场景")), (str "icon", CVal.str (str "🏕️"))] []
      ≠ claimComposeC2 processNormalScenario ⟨true, str "远程生成的正文"⟩
        (str "deepseek") (str "DeepSeek AI")
        [(str "name", CVal.str (str "普通场景")), (str "icon", CVal.str (str "🏕️"))] [] :=
  ⟨by decide, by decide, by decide⟩

/-- C2 (amended).  Whenever the Scenario Router returns non-empty text,
`_process_with_advanced_ai` returns that text unmodified and unenriched,
for every possible Remote Responder outcome (success or failure), model
identity, scenario info and basic-engine fallback; the remote body with
the scenario header and model footer is used only when the router's text
is empty. -/
theorem processAdvanced_returns_router_text (sr : List (Str × CVal)) (llm : LLMResult)
    (modelId modelName : Str) (scenarioInfo : List (Str × CVal)) (basic : Str)
    (h1 : ¬ sr.isEmpty = true) (h2 : (scenarioRespText sr).getD [] ≠ []) :
    processWithAdvancedAI sr llm modelId modelName scenarioInfo basic
      = (scenarioRespText sr).getD [] :=
  advancedAI_router_text sr llm modelId modelName scenarioInfo basic h1 h2

/-- Witness for C2 (amended) at the normal-scenario dict and a
succeeding non-local remote model. -/
theorem processAdvanced_returns_router_text_witness :
    (¬ processNormalScenario.isEmpty = true) ∧
    ((scenarioRespText processNormalScenario).getD [] ≠ []) ∧
    processWithAdvancedAI processNormalScenario ⟨true, str "正文"⟩ (str "deepseek")
        (str "DeepSeek AI") [] []
      = (scenarioRespText processNormalScenario).getD [] :=
  ⟨by decide, by decide,
    processAdvanced_returns_router_text processNormalScenario ⟨true, str "正文"⟩
      (str "deepseek") (str "DeepSeek AI") [] [] (by decide) (by decide)⟩

/-- C6.  Counterexample: with advanced mode on and the remote call
failing, `process_question("how do I find water")` returns the normal
scenario router's text, while the pure local fallback chain on the same
input (no pattern hit, no keyword hit, empty search) returns a no-match
template — the two strings differ. -/
theorem answer_advanced_ne_basic_cex :
    processQuestionAdvancedNormal (str "how do I find water") ⟨false, str "API调用失败"⟩
        (str "deepseek") (str "DeepSeek AI") [] [] [] 0
      = str "这是普通野外生存场景的建议。请查看生存知识和技能指导获取详细信息。" ∧
    processWithBasicEngine (str "how do I find water") [] [] 0
      = str "抱歉，我没有完全理解您的问题。请尝试更具体地描述您的情况。🤔" ∧
    processQuestionAdvancedNormal (str "how do I find water") ⟨false, str "API调用失败"⟩
        (str "deepseek") (str "DeepSeek AI") [] [] [] 0
      ≠ processWithBasicEngine (str "how do I find water") [] [] 0 :=
  ⟨by decide, by decide, by decide⟩

/-- C6 (amended).  With advanced mode enabled,
`process_question("how do I find water")` returns the scenario router's
text for the active (default, normal) scenario for every remote
responder outcome — in particular for every failing remote call — and
never the basic-engine chain's output, which is reached only when the
router yields no text or advanced processing raises. -/
theorem answer_advanced_normal_scenario_text (llm : LLMResult) (modelId modelName : Str)
    (scenarioInfo : List (Str × CVal)) (searchResults categoryResults : List Knowledge)
    (k : ℕ) :
    processQuestionAdvancedNormal (str "how do I find water") llm modelId modelName
        scenarioInfo searchResults categoryResults k
      = str "这是普通野外生存场景的建议。请查看生存知识和技能指导获取详细信息。" := by
  unfold processQuestionAdvancedNormal
  rw [if_neg (by decide : ¬ pyStrip (str "how do I find water") = ([] : Str))]
  rw [advancedAI_router_text _ _ _ _ _ _ (by decide) (by decide)]
  rfl

end SurvivalGPT
